import Mathlib

/-!
Verification development for the wms-pallet-tag-system analysis scripts.

Shallow embedding of the three Python sources:
  analysis/python-tools/canadian_order_deep_dive_fixed.py
  analysis/python-tools/wms_analysis.py
  analysis/python-tools/auth_test.py

The data source (Oracle) is an external collaborator: each fixed SQL text of
the scripts is embedded as a field of a record describing the response of the
database to that statement (the matching rows, or a raised error).  Control
flow, error propagation, result shaping and the ROWNUM bound are translated
from the Python code itself.
-/

namespace Wms

/-- Scalar value in a result row: string, number, or NULL.  Dates are
rendered as their string form (spec section 6). -/
inductive Value where
  | str (s : String)
  | num (n : Int)
  | null
  deriving DecidableEq

/-- Row as returned by cursor.fetchall in the strategy queries: a tuple of
scalar values. -/
abbrev Row := List Value

/-- Data-source error (the message of the raised exception). -/
abbrev DbError := String

/-- Python truthiness of a scalar value: None, empty string and zero are
falsy; everything else is truthy. -/
def Value.truthy : Value → Bool
  | Value.null => false
  | Value.str s => !(s == "")
  | Value.num n => !(n == 0)

/-- Python truthiness of dict.get: a missing key (none) is falsy. -/
def truthyO : Option Value → Bool
  | none => false
  | some v => v.truthy

/-! ## find_canadian_orders (canadian_order_deep_dive_fixed.py lines 42-124)

The cursor is modelled by the responses of the database to the four fixed
SQL texts.  Every strategy SQL ends in AND ROWNUM <= :limit, so the data
source is described by the rows matching the WHERE clause before the ROWNUM
bound; executing the statement keeps the first limit of them.  The trailing
ORDER BY permutes only the selected rows and is absorbed into the order of
the abstract matching list, which is universally quantified throughout. -/

/-- Responses of the data source to the strategy SQL texts of
find_canadian_orders: sql1 (per country pattern), sql_arc, sql2, sql_any.
Each response is the matching rows before the ROWNUM bound, or an error. -/
structure StrategyMatches where
  byCountry : String → Except DbError (List Row)
  archived : Except DbError (List Row)
  rossi : Except DbError (List Row)
  anyRecent : Except DbError (List Row)

/-- Executing one strategy statement whose WHERE clause ends in
AND ROWNUM <= :limit: the database returns the first limit matching rows,
or raises. -/
def execQuery (resp : Except DbError (List Row)) (limit : Nat) :
    Except DbError (List Row) :=
  resp.map (fun rows => rows.take limit)

/-- Country patterns tried by strategy 1, in source order (line 52). -/
def countryPatterns : List String := ["%CANAD%", "CA", "CAN"]

/-- Trace entry identifying one cursor.execute call of find_canadian_orders:
strategy 1 with a given country pattern, or strategies 2, 3, 4. -/
inductive StratId where
  | s1 (pattern : String)
  | s2
  | s3
  | s4
  deriving DecidableEq

/-- Strategy 1 loop (lines 52-73): try each country pattern in order, keep
the first non-empty result and break; on no match the result is the empty
list (line 72-73).  A raised error propagates (there is no try/except).
The second component records the executed pattern queries in order. -/
def strategy1Loop (m : StrategyMatches) (limit : Nat) :
    List String → Except DbError (List Row) × List StratId
  | [] => (Except.ok [], [])
  | p :: ps =>
    match execQuery (m.byCountry p) limit with
    | Except.error e => (Except.error e, [StratId.s1 p])
    | Except.ok found =>
      if found.isEmpty then
        ((strategy1Loop m limit ps).1,
         StratId.s1 p :: (strategy1Loop m limit ps).2)
      else (Except.ok found, [StratId.s1 p])

/-- The results dict built by find_canadian_orders, one key per strategy. -/
structure FindResults where
  by_country : List Row
  archived_canadian : List Row
  by_rossi : List Row
  any_recent : List Row
  deriving DecidableEq

/-- find_canadian_orders (lines 42-124): strategy 1 pattern loop, then
strategies 2, 3 and 4 executed unconditionally, each result stored under its
own key.  No try/except: a raised error propagates out of the function.  The
second component is the trace of executed strategy queries in order. -/
def find_canadian_orders (m : StrategyMatches) (limit : Nat) :
    Except DbError FindResults × List StratId :=
  match strategy1Loop m limit countryPatterns with
  | (Except.error e, t1) => (Except.error e, t1)
  | (Except.ok bc, t1) =>
    match execQuery m.archived limit with
    | Except.error e => (Except.error e, t1 ++ [StratId.s2])
    | Except.ok arc =>
      match execQuery m.rossi limit with
      | Except.error e => (Except.error e, t1 ++ [StratId.s2, StratId.s3])
      | Except.ok ros =>
        match execQuery m.anyRecent limit with
        | Except.error e =>
          (Except.error e, t1 ++ [StratId.s2, StratId.s3, StratId.s4])
        | Except.ok anyR =>
          (Except.ok { by_country := bc, archived_canadian := arc,
                       by_rossi := ros, any_recent := anyR },
           t1 ++ [StratId.s2, StratId.s3, StratId.s4])

/-- Selection of the discovery outcome in main (lines 676-690): the first
strategy, in priority order, with a non-empty result contributes its first
row as the selected order; if all are empty, selected_order stays None. -/
def selectOrder (r : FindResults) : Option Row :=
  match r.by_country with
  | row :: _ => some row
  | [] =>
    match r.archived_canadian with
    | row :: _ => some row
    | [] =>
      match r.by_rossi with
      | row :: _ => some row
      | [] =>
        match r.any_recent with
        | row :: _ => some row
        | [] => none

/-- Spec-side definition, following the spec wording: the discovery outcome
is the first row of the first non-empty result set in the given order. -/
def firstNonEmptyHead : List (List Row) → Option Row
  | [] => none
  | ([] :: ls) => firstNonEmptyHead ls
  | ((row :: _) :: _) => some row

/-! ## get_complete_shipment_data (canadian_order_deep_dive_fixed.py 126-341) -/

/-- Row shaped as dict(zip(cols, row)): a mapping column name to value. -/
abbrev DRow := List (String × Value)

/-- dict.get of a shaped row. -/
def dget (r : DRow) (k : String) : Option Value :=
  (r.find? (fun kv => kv.1 == k)).map (fun kv => kv.2)

/-- Responses of the data source to the fixed SQL texts of
get_complete_shipment_data.  Queries taking bound parameters from a
previously fetched row are modelled as functions of that row.  The
TRLR_LOAD and CARMST statements are the two wrapped in try/except in the
source, so their responses may be errors; the others are modelled in their
normal successful execution. -/
structure ShipDb where
  shipment : String → Option DRow
  arcShipment : String → Option DRow
  shipmentLines : String → List DRow
  ordLine : DRow → Option DRow
  prtmst : DRow → Option DRow
  altPrt : DRow → List DRow
  invlod : DRow → List DRow
  stopQ : DRow → Option DRow
  trlrLoad : String → Except DbError (List DRow)
  carmst : DRow → Except DbError (Option DRow)

/-- The data dict built by get_complete_shipment_data.  Keys that the Python
code sets only conditionally are Option fields (none = key absent).  The
archived field records whether the key archived was set (header came from
ARC_SHIPMENT).  trailer_error records the error message printed inline when
the TRLR_LOAD query raises. -/
structure ShipData where
  ship_id : String
  archived : Bool
  shipment : DRow
  shipment_lines : List DRow
  order_lines : Option (List DRow)
  products : Option (List DRow)
  alternate_parts : Option (List DRow)
  lpns : List DRow
  stop : Option DRow
  trailer_loads : List DRow
  trailer_error : Option DbError
  carrier : Option DRow
  deriving DecidableEq

/-- Sections 2-9 of get_complete_shipment_data, run once the shipment header
row has been found (in the active table when arch is false, in the archive
when arch is true). -/
def buildShipData (db : ShipDb) (sid : String) (shiprow : DRow)
    (arch : Bool) : ShipData :=
  let lines := db.shipmentLines sid
  let order_lines : Option (List DRow) :=
    if lines.isEmpty then none else some (lines.filterMap db.ordLine)
  let olTruthy : Bool :=
    match order_lines with
    | some l => !l.isEmpty
    | none => false
  let products : Option (List DRow) :=
    if olTruthy then some ((order_lines.getD []).filterMap db.prtmst)
    else none
  let alternate_parts : Option (List DRow) :=
    if olTruthy then some ((order_lines.getD []).flatMap db.altPrt)
    else none
  let lpns : List DRow :=
    if truthyO (dget shiprow "DSTLOC") then db.invlod shiprow else []
  let stop : Option DRow :=
    if truthyO (dget shiprow "STOP_ID") then db.stopQ shiprow else none
  let trl : List DRow × Option DbError :=
    match db.trlrLoad sid with
    | Except.ok rows => (rows, none)
    | Except.error e => ([], some e)
  let carrier : Option DRow :=
    if truthyO (dget shiprow "CARCOD") then
      match db.carmst shiprow with
      | Except.ok (some row) => some row
      | Except.ok none => none
      | Except.error _ => none
    else none
  { ship_id := sid, archived := arch, shipment := shiprow,
    shipment_lines := lines, order_lines := order_lines,
    products := products, alternate_parts := alternate_parts,
    lpns := lpns, stop := stop, trailer_loads := trl.1,
    trailer_error := trl.2, carrier := carrier }

/-- get_complete_shipment_data (lines 126-341): fetch the header from
SHIPMENT; if absent, from ARC_SHIPMENT (setting archived); if still absent
return None, otherwise build the complete data dict. -/
def get_complete_shipment_data (db : ShipDb) (sid : String) :
    Option ShipData :=
  match db.shipment sid with
  | some row => some (buildShipData db sid row false)
  | none =>
    match db.arcShipment sid with
    | some row => some (buildShipData db sid row true)
    | none => none

/-! ## Schema-wide enumeration (wms_analysis.py lines 193-200 and 245-251)

The SQL is
  SELECT owner, table_name FROM all_tables
  WHERE owner NOT IN (denylist) ORDER BY owner, table_name.
The data source is the all_tables catalog, a list of (owner, table_name)
pairs; the WHERE clause is a filter and the ORDER BY an ascending
lexicographic sort, embedded below by code point. -/

/-- Lexicographic comparison of char lists by code point. -/
def charListLE : List Char → List Char → Bool
  | [], _ => true
  | _ :: _, [] => false
  | a :: as, b :: bs =>
    if a.toNat < b.toNat then true
    else if b.toNat < a.toNat then false
    else charListLE as bs

/-- String comparison used for ORDER BY ascending. -/
def strLE (a b : String) : Bool := charListLE a.data b.data

/-- Ascending (owner, table_name) order: ORDER BY owner, table_name. -/
def tableLE (a b : String × String) : Bool :=
  if a.1 = b.1 then strLE a.2 b.2 else strLE a.1 b.1

/-- The ORDER BY relation as a proposition. -/
def tableRel (a b : String × String) : Prop := tableLE a b = true

instance tableRelDecidable : DecidableRel tableRel :=
  fun a b => instDecidableEqBool (tableLE a b) true

/-- The denylist of system/internal namespaces hardcoded in the NOT IN
clause of wms_analysis.py. -/
def schemaDenylist : List String :=
  ["SYS", "SYSTEM", "DBSNMP", "OUTLN", "MDSYS", "ORDSYS", "EXFSYS", "DMSYS",
   "WMSYS", "CTXSYS", "XDB", "ANONYMOUS", "ORDDATA", "SI_INFORMTN_SCHEMA",
   "OLAPSYS"]

/-- The enumeration query of phase_1_schema_discovery and
phase_2_sample_data: filter out denylisted owners, then sort ascending by
(owner, table_name). -/
def enumerateTables (allTables : List (String × String)) :
    List (String × String) :=
  List.insertionSort tableRel
    (allTables.filter (fun t => !schemaDenylist.contains t.1))

/-! ## phase_2_sample_data (wms_analysis.py lines 234-276) -/

/-- Data source for phase 2: the all_tables catalog and, per table, the
response to SELECT * FROM owner.table_name WHERE ROWNUM <= 10 together with
the column descriptors (or a raised error, e.g. permission denied). -/
structure SampleDb where
  allTables : List (String × String)
  sample : String × String → Except DbError (List String × List Row)

/-- One output section of phase 2: either sampled rows for a table, or the
error recorded inline in that section by the except branch (line 272-273).
Both carry the table, whose header is written before the try. -/
inductive SampleSection where
  | rowsOf (tbl : String × String) (cols : List String) (rows : List Row)
  | failed (tbl : String × String) (e : DbError)
  deriving DecidableEq

/-- The table a section belongs to. -/
def sectionTable : SampleSection → String × String
  | SampleSection.rowsOf t _ _ => t
  | SampleSection.failed t _ => t

/-- Body of the phase-2 loop for one table (lines 253-273): try to sample;
on a raised error record it inline and continue. -/
def sampleOne (db : SampleDb) (t : String × String) : SampleSection :=
  match db.sample t with
  | Except.ok (cols, rows) => SampleSection.rowsOf t cols rows
  | Except.error e => SampleSection.failed t e

/-- phase_2_sample_data: enumerate all non-denylisted tables, then emit one
section per table in enumeration order. -/
def phase_2_sample_data (db : SampleDb) : List SampleSection :=
  (enumerateTables db.allTables).map (sampleOne db)

/-! ## Connection lifecycle (claim C7)

Control-flow skeletons of the three entry points, tracking whether a
connection was established and whether it was closed before the run ended.
An Option DbError models whether the given step raised (some e) or
completed (none). -/

/-- Final state of a run with respect to the data-source connection. -/
structure RunState where
  connOpened : Bool
  connClosed : Bool
  failure : Option DbError
  deriving DecidableEq

/-- WMSAnalyzer.run_all_phases (wms_analysis.py 412-433): connect, returning
False on failure; then the four phases inside try/finally disconnect. -/
def run_all_phases (connectOk : Bool) (body : Option DbError) : RunState :=
  if !connectOk then
    { connOpened := false, connClosed := false, failure := none }
  else
    match body with
    | some e => { connOpened := true, connClosed := true, failure := some e }
    | none => { connOpened := true, connClosed := true, failure := none }

/-- main of canadian_order_deep_dive_fixed.py (650-777): connect and create
the cursor, then create the output directory, and only then enter the
try/finally that closes cursor and connection.  An exception in the
directory creation (between connect and try) propagates with the connection
still open. -/
def canadianMain (connectRaises : Bool) (mkdirRaises : Option DbError)
    (body : Option DbError) : RunState :=
  if connectRaises then
    { connOpened := false, connClosed := false, failure := some "connect" }
  else
    match mkdirRaises with
    | some e => { connOpened := true, connClosed := false, failure := some e }
    | none =>
      match body with
      | some e =>
        { connOpened := true, connClosed := true, failure := some e }
      | none => { connOpened := true, connClosed := true, failure := none }

/-- The wms_analysis.py entry point for phases 1-3 (lines 587-600): after a
successful connect the selected phases run with no surrounding try, and
analyzer.disconnect() is reached only on normal completion.  An exception
escaping a phase ends the run with the connection open. -/
def wmsMainPhases (connectOk : Bool) (phaseRaises : Option DbError) :
    RunState :=
  if !connectOk then
    { connOpened := false, connClosed := false, failure := some "connect" }
  else
    match phaseRaises with
    | some e => { connOpened := true, connClosed := false, failure := some e }
    | none => { connOpened := true, connClosed := true, failure := none }

/-! ## Credential loading (claim C8) -/

/-- Environment after .env loading: a partial map from variable names. -/
abbrev EnvMap := String → Option String

/-- Database connection configuration (load_config and
DatabaseConfig.from_env build the same five fields). -/
structure Config where
  username : String
  password : String
  host : String
  port : Nat
  service : String
  deriving DecidableEq

/-- Decimal digit accumulation for parseNat. -/
def parseDigits : Nat → List Char → Option Nat
  | acc, [] => some acc
  | acc, c :: cs =>
    if c.isDigit then parseDigits (acc * 10 + (c.toNat - 48)) cs else none

/-- Python int() on a nonnegative decimal string: the digits value, or none
when the string is empty or holds a non-digit (int() raises there). -/
def parseNat (s : String) : Option Nat :=
  match s.data with
  | [] => none
  | cs => parseDigits 0 cs

/-- load_config (canadian_order_deep_dive_fixed.py 17-35): every missing
variable is silently replaced by a hardcoded default (empty string for the
password); int() on the port is the only way it can raise. -/
def load_config (env : EnvMap) : Except String Config :=
  match parseNat ((env "ORACLE_PORT").getD "1521") with
  | none => Except.error "invalid literal for int"
  | some p =>
    Except.ok
      { username := (env "ORACLE_USERNAME").getD "RPTADM"
        password := (env "ORACLE_PASSWORD").getD ""
        host := (env "SITE_TBG3002_HOST").getD "10.19.68.61"
        port := p
        service := (env "ORACLE_SERVICE").getD "WMSP" }

/-- DatabaseConfig.from_env (wms_analysis.py 58-77): same defaults as
load_config. -/
def from_env (env : EnvMap) : Except String Config :=
  match parseNat ((env "ORACLE_PORT").getD "1521") with
  | none => Except.error "invalid literal for int"
  | some p =>
    Except.ok
      { username := (env "ORACLE_USERNAME").getD "RPTADM"
        password := (env "ORACLE_PASSWORD").getD ""
        host := (env "SITE_TBG3002_HOST").getD "10.19.68.61"
        port := p
        service := (env "ORACLE_SERVICE").getD "WMSP" }

/-- main of canadian_order_deep_dive_fixed.py proceeds straight from
load_config to connect_db: whenever load_config returns a config, a
connection attempt with exactly those credentials is made, with no
missing-value check in between. -/
def canadianConnectAttempt (env : EnvMap) : Bool :=
  match load_config env with
  | Except.ok _ => true
  | Except.error _ => false

/-- main of auth_test.py (99-154): read and trim the three variables, and if
any is empty report the missing credentials and return exit code 2 before
any connection attempt; otherwise attempt the connection (0 on success, 3 on
failure).  The second component records whether a connection attempt was
made. -/
def auth_test_main (env : EnvMap) (connectOk : Bool) : Int × Bool :=
  let user := ((env "ORACLE_USERNAME").getD "").trim
  let pw := (env "ORACLE_PASSWORD").getD ""
  let dsn := ((env "ORACLE_DSN").getD "").trim
  if user == "" || pw == "" || dsn == "" then (2, false)
  else if connectOk then (0, true) else (3, true)

/-! ## execute_query (wms_analysis.py lines 154-161, claim C9) -/

/-- WMSAnalyzer.execute_query: run the statement and fetch all rows; on any
raised exception log it and return the empty list. -/
def execute_query (outcome : Except DbError (List Row)) : List Row :=
  match outcome with
  | Except.ok rows => rows
  | Except.error _ => []

/-! ## Concrete fixtures used by counterexamples and witnesses -/

/-- Data source where strategy 1 matches on its first country pattern and
strategy 4 also has matching rows. -/
def m0 : StrategyMatches :=
  { byCountry := fun _ => Except.ok [[Value.str "CANADA"]]
    archived := Except.ok []
    rossi := Except.ok []
    anyRecent := Except.ok [[Value.str "USA"]] }

/-- Data source where strategy 2 raises (missing table) while strategy 3
would succeed. -/
def m2 : StrategyMatches :=
  { byCountry := fun _ => Except.ok []
    archived := Except.error "ORA-00942 table or view does not exist"
    rossi := Except.ok [[Value.str "ROSSI"]]
    anyRecent := Except.ok [] }

/-- Data source where every strategy query succeeds with zero rows. -/
def mEmpty : StrategyMatches :=
  { byCountry := fun _ => Except.ok []
    archived := Except.ok []
    rossi := Except.ok []
    anyRecent := Except.ok [] }

/-- Data source where every strategy has three matching rows, more than the
row-limit bound of two used in the C4 witness. -/
def m4 : StrategyMatches :=
  { byCountry := fun _ =>
      Except.ok [[Value.num 1], [Value.num 2], [Value.num 3]]
    archived := Except.ok [[Value.num 4], [Value.num 5], [Value.num 6]]
    rossi := Except.ok [[Value.num 7], [Value.num 8], [Value.num 9]]
    anyRecent := Except.ok [[Value.num 10], [Value.num 11], [Value.num 12]] }

/-- Shipment header fixture. -/
def row0 : DRow :=
  [("SHIP_ID", Value.str "S1"), ("SHPSTS", Value.str "C"),
   ("CARCOD", Value.null), ("DSTLOC", Value.null), ("STOP_ID", Value.null)]

/-- Shipment database where S1 is in the active table and the TRLR_LOAD
query raises. -/
def sdbA : ShipDb :=
  { shipment := fun s => if s == "S1" then some row0 else none
    arcShipment := fun _ => none
    shipmentLines := fun _ => []
    ordLine := fun _ => none
    prtmst := fun _ => none
    altPrt := fun _ => []
    invlod := fun _ => []
    stopQ := fun _ => none
    trlrLoad := fun _ => Except.error "ORA-00942 TRLR_LOAD not accessible"
    carmst := fun _ => Except.ok none }

/-- Shipment database where S1 is only in the archive table and every other
query succeeds normally. -/
def sdbB : ShipDb :=
  { shipment := fun _ => none
    arcShipment := fun s => if s == "S1" then some row0 else none
    shipmentLines := fun _ => []
    ordLine := fun _ => none
    prtmst := fun _ => none
    altPrt := fun _ => []
    invlod := fun _ => []
    stopQ := fun _ => none
    trlrLoad := fun _ => Except.ok []
    carmst := fun _ => Except.ok none }

/-- Catalog fixture with denylisted and non-denylisted owners, out of
order. -/
def ts0 : List (String × String) :=
  [("WMSP", "SHIPMENT"), ("SYS", "DUAL"), ("WMSP", "ADRMST"),
   ("APP", "T1"), ("SYSTEM", "HELP")]

/-- Sample database where sampling WMSP.ADRMST raises. -/
def sdb0 : SampleDb :=
  { allTables := ts0
    sample := fun t =>
      if t = ("WMSP", "ADRMST") then
        Except.error "ORA-01031 insufficient privileges"
      else Except.ok (["C1"], [[Value.num 1]]) }

/-- Same catalog as sdb0 but with the sampling of WMSP.ADRMST succeeding;
used to show that the failure on that one table changes no other section. -/
def sdb1 : SampleDb :=
  { allTables := ts0
    sample := fun t =>
      if t = ("WMSP", "ADRMST") then Except.ok (["C1"], [])
      else sdb0.sample t }

/-- Environment with every variable missing. -/
def emptyEnv : EnvMap := fun _ => none

/-- Expected results record for the C1 witness run. -/
def r0c : FindResults :=
  { by_country := [[Value.str "CANADA"]], archived_canadian := [],
    by_rossi := [], any_recent := [[Value.str "USA"]] }

/-- Expected trace for the C1 witness run. -/
def tr0c : List StratId :=
  [StratId.s1 "%CANAD%", StratId.s2, StratId.s3, StratId.s4]

/-- Expected results record for the C4 witness run with bound 2 on m4. -/
def r4c : FindResults :=
  { by_country := [[Value.num 1], [Value.num 2]]
    archived_canadian := [[Value.num 4], [Value.num 5]]
    by_rossi := [[Value.num 7], [Value.num 8]]
    any_recent := [[Value.num 10], [Value.num 11]] }

/-- Expected trace for the C4 witness run. -/
def tr4c : List StratId :=
  [StratId.s1 "%CANAD%", StratId.s2, StratId.s3, StratId.s4]

/-- Empty results record (all strategies with zero rows). -/
def emptyResults : FindResults :=
  { by_country := [], archived_canadian := [], by_rossi := [],
    any_recent := [] }

/-- Trace of a run in which every strategy query returns zero rows. -/
def fullTrace : List StratId :=
  [StratId.s1 "%CANAD%", StratId.s1 "CA", StratId.s1 "CAN",
   StratId.s2, StratId.s3, StratId.s4]

/-- The configuration produced by load_config and from_env when every
environment variable is missing: only hardcoded defaults. -/
def cfg0 : Config :=
  { username := "RPTADM", password := "", host := "10.19.68.61",
    port := 1521, service := "WMSP" }

/-- The data dict produced for S1 on sdbB (header found in the archive). -/
def dB : ShipData := buildShipData sdbB "S1" row0 true

/-! # Helper lemmas -/

theorem selectOrder_eq_firstNonEmptyHead (r : FindResults) :
    selectOrder r =
      firstNonEmptyHead
        [r.by_country, r.archived_canadian, r.by_rossi, r.any_recent] := by
  obtain ⟨bc, arc, ros, anyR⟩ := r
  cases bc <;> cases arc <;> cases ros <;> cases anyR <;> rfl

theorem execQuery_ok_length (resp : Except DbError (List Row)) (limit : Nat)
    (found : List Row) (h : execQuery resp limit = Except.ok found) :
    found.length ≤ limit := by
  cases resp with
  | error e => simp [execQuery, Except.map] at h
  | ok rows =>
    simp only [execQuery, Except.map, Except.ok.injEq] at h
    subst h
    exact List.length_take_le limit rows

theorem strategy1Loop_ok_length (m : StrategyMatches) (limit : Nat) :
    ∀ (ps : List String) (bc : List Row) (t : List StratId),
      strategy1Loop m limit ps = (Except.ok bc, t) → bc.length ≤ limit := by
  intro ps
  induction ps with
  | nil =>
    intro bc t h
    simp only [strategy1Loop, Prod.mk.injEq, Except.ok.injEq] at h
    obtain ⟨h1, -⟩ := h
    subst h1
    exact Nat.zero_le limit
  | cons p ps ih =>
    intro bc t h
    cases hq : execQuery (m.byCountry p) limit with
    | error e => simp [strategy1Loop, hq] at h
    | ok found =>
      by_cases hemp : found.isEmpty
      · simp only [strategy1Loop, hq, hemp, if_true, Prod.mk.injEq] at h
        exact ih bc _ (by rw [← h.1])
      · simp only [strategy1Loop, hq, hemp, if_false, Bool.false_eq_true,
          Prod.mk.injEq, Except.ok.injEq] at h
        obtain ⟨h1, -⟩ := h
        subst h1
        exact execQuery_ok_length _ _ _ hq

theorem strategy1Loop_trace_s1 (m : StrategyMatches) (limit : Nat) :
    ∀ (ps : List String) (x : StratId),
      x ∈ (strategy1Loop m limit ps).2 → ∃ p, x = StratId.s1 p := by
  intro ps
  induction ps with
  | nil => intro x hx; simp [strategy1Loop] at hx
  | cons p ps ih =>
    intro x hx
    cases hq : execQuery (m.byCountry p) limit with
    | error e =>
      simp [strategy1Loop, hq] at hx
      exact ⟨p, hx⟩
    | ok found =>
      by_cases hemp : found.isEmpty
      · simp only [strategy1Loop, hq, hemp, if_true, List.mem_cons] at hx
        rcases hx with h | h
        · exact ⟨p, h⟩
        · exact ih x h
      · simp [strategy1Loop, hq, hemp] at hx
        exact ⟨p, hx⟩

theorem find_ok_elim (m : StrategyMatches) (limit : Nat) (r : FindResults)
    (tr : List StratId)
    (h : find_canadian_orders m limit = (Except.ok r, tr)) :
    ∃ t1,
      strategy1Loop m limit countryPatterns = (Except.ok r.by_country, t1) ∧
      execQuery m.archived limit = Except.ok r.archived_canadian ∧
      execQuery m.rossi limit = Except.ok r.by_rossi ∧
      execQuery m.anyRecent limit = Except.ok r.any_recent ∧
      tr = t1 ++ [StratId.s2, StratId.s3, StratId.s4] := by
  cases hL : strategy1Loop m limit countryPatterns with
  | mk res1 t1 =>
    cases res1 with
    | error e => simp [find_canadian_orders, hL] at h
    | ok bc =>
      cases hA : execQuery m.archived limit with
      | error e => simp [find_canadian_orders, hL, hA] at h
      | ok arc =>
        cases hR : execQuery m.rossi limit with
        | error e => simp [find_canadian_orders, hL, hA, hR] at h
        | ok ros =>
          cases hN : execQuery m.anyRecent limit with
          | error e => simp [find_canadian_orders, hL, hA, hR, hN] at h
          | ok anyR =>
            simp only [find_canadian_orders, hL, hA, hR, hN,
              Prod.mk.injEq, Except.ok.injEq] at h
            obtain ⟨hr, htr⟩ := h
            subst hr
            exact ⟨t1, rfl, rfl, rfl, rfl, htr.symm⟩

/-! # Claim theorems -/

/-- C1, counterexample.  The claim says that once strategy 1 (the first
strategy, matching on its first country pattern here) returns rows, no
later strategy is ever executed and at most one strategy contributes rows.
On the data source m0, strategy 1 matches, yet strategy 4 is still executed
and the results hold the rows of both strategy 1 and strategy 4. -/
theorem C1_counterexample :
    (find_canadian_orders m0 10).2.contains StratId.s4 = true ∧
    (find_canadian_orders m0 10).1 = Except.ok r0c ∧
    r0c.by_country ≠ [] ∧ r0c.any_recent ≠ [] := by
  refine ⟨rfl, rfl, ?_, ?_⟩ <;> simp [r0c]

/-- C1, corrected.  All four strategies are executed on every invocation
that returns (the trace always contains strategies 2, 3 and 4); the
short-circuit exists only in the selection step of main, whose selected
discovery outcome is the first row of the first strategy, in priority
order, whose result set is non-empty. -/
theorem C1_theorem (m : StrategyMatches) (limit : Nat) (r : FindResults)
    (tr : List StratId)
    (h : find_canadian_orders m limit = (Except.ok r, tr)) :
    (StratId.s2 ∈ tr ∧ StratId.s3 ∈ tr ∧ StratId.s4 ∈ tr) ∧
    selectOrder r =
      firstNonEmptyHead
        [r.by_country, r.archived_canadian, r.by_rossi, r.any_recent] := by
  obtain ⟨t1, -, -, -, -, htr⟩ := find_ok_elim m limit r tr h
  subst htr
  exact ⟨⟨by simp, by simp, by simp⟩, selectOrder_eq_firstNonEmptyHead r⟩

/-- C1, witness for the corrected claim at the concrete run of m0. -/
theorem C1_witness :
    (StratId.s2 ∈ tr0c ∧ StratId.s3 ∈ tr0c ∧ StratId.s4 ∈ tr0c) ∧
    selectOrder r0c =
      firstNonEmptyHead
        [r0c.by_country, r0c.archived_canadian, r0c.by_rossi,
         r0c.any_recent] :=
  C1_theorem m0 10 r0c tr0c (by rfl)

/-- C2, counterexample.  The claim says a data-source error in one strategy
is recorded, treated as a non-match, and the search continues, so that a
later succeeding strategy determines the outcome.  On m2, strategy 2 raises
while strategy 3 has a matching row; the whole search aborts with the
error and strategy 3 is never executed. -/
theorem C2_counterexample :
    (find_canadian_orders m2 10).1 =
      Except.error "ORA-00942 table or view does not exist" ∧
    StratId.s3 ∉ (find_canadian_orders m2 10).2 ∧
    m2.rossi = Except.ok [[Value.str "ROSSI"]] := by
  refine ⟨rfl, ?_, rfl⟩
  decide

/-- C2, corrected.  In find_canadian_orders a data-source error in a
strategy query propagates and aborts the whole search: if strategy 2
raises then the invocation ends with that error and strategies 3 and 4 are
never executed.  The record-the-error-and-continue behavior exists only in
get_complete_shipment_data, whose TRLR_LOAD query on raising an error has
the error recorded inline, trailer_loads set to the empty list, and the
extraction still returning its data. -/
theorem C2_theorem
    (m : StrategyMatches) (limit : Nat) (bc : List Row) (t1 : List StratId)
    (e : DbError) (db : ShipDb) (sid : String) (row : DRow) (eT : DbError)
    (hm : m.archived = Except.error e)
    (hL : strategy1Loop m limit countryPatterns = (Except.ok bc, t1))
    (hs : db.shipment sid = some row)
    (ht : db.trlrLoad sid = Except.error eT) :
    (find_canadian_orders m limit).1 = Except.error e ∧
    StratId.s3 ∉ (find_canadian_orders m limit).2 ∧
    StratId.s4 ∉ (find_canadian_orders m limit).2 ∧
    Option.map (fun d => (d.trailer_loads, d.trailer_error))
      (get_complete_shipment_data db sid) = some ([], some eT) := by
  have hfind : find_canadian_orders m limit =
      (Except.error e, t1 ++ [StratId.s2]) := by
    simp [find_canadian_orders, hL, hm, execQuery, Except.map]
  refine ⟨by rw [hfind], ?_, ?_, ?_⟩
  · rw [hfind]
    intro hmem
    simp only [List.mem_append, List.mem_singleton] at hmem
    rcases hmem with h | h
    · obtain ⟨p, hp⟩ := strategy1Loop_trace_s1 m limit countryPatterns _
        (by rw [hL]; exact h)
      exact StratId.noConfusion hp
    · exact StratId.noConfusion h
  · rw [hfind]
    intro hmem
    simp only [List.mem_append, List.mem_singleton] at hmem
    rcases hmem with h | h
    · obtain ⟨p, hp⟩ := strategy1Loop_trace_s1 m limit countryPatterns _
        (by rw [hL]; exact h)
      exact StratId.noConfusion hp
    · exact StratId.noConfusion h
  · simp [get_complete_shipment_data, hs, buildShipData, ht]

/-- C2, witness for the corrected claim on the concrete runs of m2 and
sdbA. -/
theorem C2_witness :
    (find_canadian_orders m2 10).1 =
      Except.error "ORA-00942 table or view does not exist" ∧
    StratId.s3 ∉ (find_canadian_orders m2 10).2 ∧
    StratId.s4 ∉ (find_canadian_orders m2 10).2 ∧
    Option.map (fun d => (d.trailer_loads, d.trailer_error))
      (get_complete_shipment_data sdbA "S1") =
      some ([], some "ORA-00942 TRLR_LOAD not accessible") :=
  C2_theorem m2 10 []
    [StratId.s1 "%CANAD%", StratId.s1 "CA", StratId.s1 "CAN"]
    "ORA-00942 table or view does not exist" sdbA "S1" row0
    "ORA-00942 TRLR_LOAD not accessible" rfl (by rfl) rfl rfl

/-- C3, confirmed.  If every strategy query succeeds with zero rows, the
invocation returns normally (no error), every result set is empty, and the
selection in main picks no order: the not-found state is a valid terminal
outcome. -/
theorem C3_theorem (m : StrategyMatches) (limit : Nat)
    (h1 : ∀ p ∈ countryPatterns, m.byCountry p = Except.ok [])
    (h2 : m.archived = Except.ok []) (h3 : m.rossi = Except.ok [])
    (h4 : m.anyRecent = Except.ok []) :
    find_canadian_orders m limit = (Except.ok emptyResults, fullTrace) ∧
    selectOrder emptyResults = none := by
  have p1 := h1 "%CANAD%" (by simp [countryPatterns])
  have p2 := h1 "CA" (by simp [countryPatterns])
  have p3 := h1 "CAN" (by simp [countryPatterns])
  constructor
  · simp [find_canadian_orders, strategy1Loop, countryPatterns, execQuery,
      Except.map, p1, p2, p3, h2, h3, h4, emptyResults, fullTrace]
  · rfl

/-- C3, witness at the concrete all-empty data source. -/
theorem C3_witness :
    find_canadian_orders mEmpty 10 = (Except.ok emptyResults, fullTrace) ∧
    selectOrder emptyResults = none :=
  C3_theorem mEmpty 10 (fun _ _ => rfl) rfl rfl rfl

/-- C4, confirmed.  Every strategy query carries ROWNUM <= :limit with the
same bound, so in any returning invocation each result set independently
has at most limit rows, regardless of how many rows match the strategy
predicate in the data source. -/
theorem C4_theorem (m : StrategyMatches) (limit : Nat) (r : FindResults)
    (tr : List StratId)
    (h : find_canadian_orders m limit = (Except.ok r, tr)) :
    r.by_country.length ≤ limit ∧ r.archived_canadian.length ≤ limit ∧
    r.by_rossi.length ≤ limit ∧ r.any_recent.length ≤ limit := by
  obtain ⟨t1, hL, hA, hR, hN, -⟩ := find_ok_elim m limit r tr h
  exact ⟨strategy1Loop_ok_length m limit countryPatterns _ _ hL,
    execQuery_ok_length _ _ _ hA, execQuery_ok_length _ _ _ hR,
    execQuery_ok_length _ _ _ hN⟩

/-- C4, witness: on m4 every strategy has three matching rows, yet with
bound 2 each result set has at most two rows. -/
theorem C4_witness :
    r4c.by_country.length ≤ 2 ∧ r4c.archived_canadian.length ≤ 2 ∧
    r4c.by_rossi.length ≤ 2 ∧ r4c.any_recent.length ≤ 2 :=
  C4_theorem m4 2 r4c tr4c (by rfl)

theorem char_toNat_inj {x y : Char} (h : x.toNat = y.toNat) : x = y :=
  Char.ext (UInt32.toNat.inj h)

theorem charListLE_total : ∀ (a b : List Char), charListLE a b || charListLE b a := by
  intro a
  induction a with
  | nil => intro b; simp [charListLE]
  | cons x xs ih =>
    intro b
    cases b with
    | nil => simp [charListLE]
    | cons y ys =>
      simp only [charListLE]
      rcases Nat.lt_trichotomy x.toNat y.toNat with h | h | h
      · simp [h, Nat.lt_asymm h]
      · have h1 : ¬(x.toNat < y.toNat) := by omega
        have h2 : ¬(y.toNat < x.toNat) := by omega
        rw [if_neg h1, if_neg h2, if_neg h2, if_neg h1]
        exact ih ys
      · simp [h, Nat.lt_asymm h]

theorem charListLE_trans :
    ∀ (a b c : List Char), charListLE a b → charListLE b c → charListLE a c := by
  intro a
  induction a with
  | nil => intro b c _ _; simp [charListLE]
  | cons x xs ih =>
    intro b c hab hbc
    cases b with
    | nil => simp [charListLE] at hab
    | cons y ys =>
      cases c with
      | nil => simp [charListLE] at hbc
      | cons z zs =>
        simp only [charListLE] at hab hbc ⊢
        by_cases h1 : x.toNat < y.toNat
        · by_cases h2 : y.toNat < z.toNat
          · rw [if_pos (Nat.lt_trans h1 h2)]
          · by_cases h3 : z.toNat < y.toNat
            · rw [if_neg h2, if_pos h3] at hbc
              exact Bool.noConfusion hbc
            · rw [if_pos (show x.toNat < z.toNat by omega)]
        · by_cases h4 : y.toNat < x.toNat
          · rw [if_neg h1, if_pos h4] at hab
            exact Bool.noConfusion hab
          · rw [if_neg h1, if_neg h4] at hab
            by_cases h2 : y.toNat < z.toNat
            · rw [if_pos (show x.toNat < z.toNat by omega)]
            · by_cases h3 : z.toNat < y.toNat
              · rw [if_neg h2, if_pos h3] at hbc
                exact Bool.noConfusion hbc
              · rw [if_neg h2, if_neg h3] at hbc
                rw [if_neg (show ¬x.toNat < z.toNat by omega),
                  if_neg (show ¬z.toNat < x.toNat by omega)]
                exact ih ys zs hab hbc

theorem charListLE_antisymm :
    ∀ (a b : List Char), charListLE a b → charListLE b a → a = b := by
  intro a
  induction a with
  | nil =>
    intro b h1 h2
    cases b with
    | nil => rfl
    | cons y ys => simp [charListLE] at h2
  | cons x xs ih =>
    intro b h1 h2
    cases b with
    | nil => simp [charListLE] at h1
    | cons y ys =>
      simp only [charListLE] at h1 h2
      by_cases hxy : x.toNat < y.toNat
      · rw [if_neg (Nat.lt_asymm hxy), if_pos hxy] at h2
        exact Bool.noConfusion h2
      · by_cases hyx : y.toNat < x.toNat
        · rw [if_neg hxy, if_pos hyx] at h1
          exact Bool.noConfusion h1
        · have hxy2 : x = y := char_toNat_inj (by omega)
          subst hxy2
          rw [if_neg hxy, if_neg hxy] at h1
          rw [if_neg hxy, if_neg hxy] at h2
          rw [ih ys h1 h2]

theorem strLE_total (a b : String) : strLE a b || strLE b a :=
  charListLE_total a.data b.data

theorem strLE_trans (a b c : String) (h1 : strLE a b) (h2 : strLE b c) :
    strLE a c :=
  charListLE_trans _ _ _ h1 h2

theorem strLE_antisymm (a b : String) (h1 : strLE a b) (h2 : strLE b a) :
    a = b := by
  have h := charListLE_antisymm a.data b.data h1 h2
  cases a with
  | mk da =>
    cases b with
    | mk db2 => exact congrArg String.mk h

theorem tableLE_total (a b : String × String) : tableLE a b || tableLE b a := by
  by_cases h : a.1 = b.1
  · simp only [tableLE, if_pos h, if_pos h.symm]
    exact strLE_total _ _
  · have h2 : ¬(b.1 = a.1) := fun hh => h hh.symm
    simp only [tableLE, if_neg h, if_neg h2]
    exact strLE_total _ _

theorem tableLE_trans (a b c : String × String) (h1 : tableLE a b)
    (h2 : tableLE b c) : tableLE a c := by
  by_cases hab : a.1 = b.1 <;> by_cases hbc : b.1 = c.1
  · have hac : a.1 = c.1 := hab.trans hbc
    rw [tableLE, if_pos hab] at h1
    rw [tableLE, if_pos hbc] at h2
    rw [tableLE, if_pos hac]
    exact strLE_trans _ _ _ h1 h2
  · have hac : ¬(a.1 = c.1) := fun h => hbc (hab.symm.trans h)
    rw [tableLE, if_neg hbc] at h2
    rw [tableLE, if_neg hac, hab]
    exact h2
  · have hac : ¬(a.1 = c.1) := fun h => hab (h.trans hbc.symm)
    rw [tableLE, if_neg hab] at h1
    rw [tableLE, if_neg hac, ← hbc]
    exact h1
  · rw [tableLE, if_neg hab] at h1
    rw [tableLE, if_neg hbc] at h2
    by_cases hac : a.1 = c.1
    · exfalso
      apply hab
      apply strLE_antisymm
      · exact h1
      · rw [hac]
        exact h2
    · rw [tableLE, if_neg hac]
      exact strLE_trans _ _ _ h1 h2

/-- C5, confirmed.  The schema-wide enumeration returns exactly the
relations of the data source whose owner is not in the denylist (a
permutation of the filtered catalog), in ascending (owner, table_name)
order, and no denylisted relation ever appears in the output. -/
theorem C5_theorem (ts : List (String × String)) :
    List.Perm (enumerateTables ts)
      (ts.filter (fun t => !schemaDenylist.contains t.1)) ∧
    List.Sorted tableRel (enumerateTables ts) ∧
    ∀ t ∈ enumerateTables ts, t.1 ∉ schemaDenylist := by
  haveI : IsTotal (String × String) tableRel :=
    ⟨fun a b => Bool.or_eq_true_iff.mp (tableLE_total a b)⟩
  haveI : IsTrans (String × String) tableRel :=
    ⟨fun a b c h1 h2 => tableLE_trans a b c h1 h2⟩
  refine ⟨List.perm_insertionSort tableRel _, ?_, ?_⟩
  · exact List.sorted_insertionSort tableRel _
  · intro t ht
    rw [enumerateTables, List.mem_insertionSort] at ht
    have h := List.of_mem_filter ht
    simpa using h

/-- C5, witness at the concrete catalog ts0. -/
theorem C5_witness :
    List.Perm (enumerateTables ts0)
      (ts0.filter (fun t => !schemaDenylist.contains t.1)) ∧
    List.Sorted tableRel (enumerateTables ts0) ∧
    ("WMSP" : String) ∉ schemaDenylist :=
  ⟨(C5_theorem ts0).1, (C5_theorem ts0).2.1,
    (C5_theorem ts0).2.2 ("WMSP", "SHIPMENT") (by decide)⟩

/-- C6, confirmed.  A sampling failure on relation R does not remove R from
the enumeration output (the emitted sections cover exactly the enumerated
relations, and R gets a section recording the error inline), and it does
not affect the section of any other relation: any data source agreeing
with this one everywhere except R produces the same section for every
other relation. -/
theorem C6_theorem (db : SampleDb) (R : String × String) (e : DbError)
    (hfail : db.sample R = Except.error e) :
    (phase_2_sample_data db).map sectionTable =
      enumerateTables db.allTables ∧
    (R ∈ enumerateTables db.allTables →
      SampleSection.failed R e ∈ phase_2_sample_data db) ∧
    ∀ db2 : SampleDb, db2.allTables = db.allTables →
      (∀ t, t ≠ R → db2.sample t = db.sample t) →
      ∀ t ∈ enumerateTables db.allTables, t ≠ R →
        sampleOne db t = sampleOne db2 t := by
  refine ⟨?_, ?_, ?_⟩
  · rw [phase_2_sample_data, List.map_map]
    have h : ∀ t ∈ enumerateTables db.allTables,
        (sectionTable ∘ sampleOne db) t = id t := by
      intro t _
      cases hs : db.sample t with
      | ok pr => simp [sampleOne, sectionTable, Function.comp, hs]
      | error e2 => simp [sampleOne, sectionTable, Function.comp, hs]
    rw [List.map_congr_left h, List.map_id]
  · intro hR
    have h : sampleOne db R = SampleSection.failed R e := by
      simp [sampleOne, hfail]
    rw [phase_2_sample_data, ← h]
    exact List.mem_map_of_mem _ hR
  · intro db2 _ hsame t _ htR
    simp only [sampleOne, hsame t htR]

/-- C6, witness: on sdb0 the sampling of WMSP.ADRMST raises, yet the output
sections cover the full enumeration, record the failure inline for that
relation, and every other relation gets the same section as on sdb1 where
that sampling succeeds. -/
theorem C6_witness :
    (phase_2_sample_data sdb0).map sectionTable =
      enumerateTables sdb0.allTables ∧
    SampleSection.failed ("WMSP", "ADRMST")
      "ORA-01031 insufficient privileges" ∈ phase_2_sample_data sdb0 ∧
    sampleOne sdb0 ("APP", "T1") = sampleOne sdb1 ("APP", "T1") := by
  have h := C6_theorem sdb0 ("WMSP", "ADRMST")
    "ORA-01031 insufficient privileges" (by rfl)
  exact ⟨h.1, h.2.1 (by decide),
    h.2.2 sdb1 rfl (fun t ht => by simp [sdb1, ht]) ("APP", "T1")
      (by decide) (by decide)⟩

/-- C7, counterexample.  The claim says every exit path after the
connection is established closes it.  In the wms_analysis entry point for
phases 1 to 3 an exception escaping a phase ends the run with the
connection opened but never closed. -/
theorem C7_counterexample :
    wmsMainPhases true (some "ORA-01652 unable to extend temp segment") =
      { connOpened := true, connClosed := false,
        failure := some "ORA-01652 unable to extend temp segment" } := rfl

/-- C7, corrected.  run_all_phases closes the connection on every exit path
on which it was opened (try/finally), and the deep-dive main does so on
every exit path that reaches its try block; but an exception escaping a
phase in the wms entry point for phases 1 to 3, or an exception between
connect and the try block of the deep-dive main (output directory
creation), ends the run with the connection still open. -/
theorem C7_theorem (body : Option DbError) (connectOk connectRaises : Bool)
    (e : DbError) :
    (run_all_phases connectOk body).connClosed =
      (run_all_phases connectOk body).connOpened ∧
    (canadianMain connectRaises none body).connClosed =
      (canadianMain connectRaises none body).connOpened ∧
    (canadianMain false (some e) body).connOpened = true ∧
    (canadianMain false (some e) body).connClosed = false ∧
    (wmsMainPhases true (some e)).connOpened = true ∧
    (wmsMainPhases true (some e)).connClosed = false := by
  refine ⟨?_, ?_, rfl, rfl, rfl, rfl⟩
  · cases connectOk <;> cases body <;> rfl
  · cases connectRaises <;> cases body <;> rfl

/-- C8, counterexample.  The claim says a missing credential value is
surfaced before any query is attempted.  With every environment variable
missing, load_config and from_env succeed by silently substituting
hardcoded defaults (username RPTADM, empty password), and the deep-dive
main proceeds straight to the connection attempt with those credentials:
nothing surfaces the missing values. -/
theorem C8_counterexample :
    load_config emptyEnv = Except.ok cfg0 ∧
    from_env emptyEnv = Except.ok cfg0 ∧
    cfg0.password = "" ∧
    canadianConnectAttempt emptyEnv = true :=
  ⟨rfl, rfl, rfl, rfl⟩

/-- C8, corrected.  Only auth_test surfaces missing credentials: with the
password (or any required variable) missing it reports and returns exit
code 2 with no connection attempt.  load_config and from_env instead
default a missing password to the empty string and the deep-dive main
proceeds to the connection attempt whenever load_config returns. -/
theorem C8_theorem (env : EnvMap) (connectOk : Bool)
    (hpw : env "ORACLE_PASSWORD" = none) :
    auth_test_main env connectOk = (2, false) ∧
    (∀ c, load_config env = Except.ok c →
      c.password = "" ∧ canadianConnectAttempt env = true) ∧
    (∀ c, from_env env = Except.ok c → c.password = "") := by
  refine ⟨?_, ?_, ?_⟩
  · simp [auth_test_main, hpw]
  · intro c hc
    refine ⟨?_, by simp [canadianConnectAttempt, hc]⟩
    cases hp : parseNat ((env "ORACLE_PORT").getD "1521") with
    | none => simp [load_config, hp] at hc
    | some p =>
      simp only [load_config, hp, Except.ok.injEq] at hc
      rw [← hc]
      simp [hpw]
  · intro c hc
    cases hp : parseNat ((env "ORACLE_PORT").getD "1521") with
    | none => simp [from_env, hp] at hc
    | some p =>
      simp only [from_env, hp, Except.ok.injEq] at hc
      rw [← hc]
      simp [hpw]

/-- C8, witness for the corrected claim on the all-missing environment. -/
theorem C8_witness :
    auth_test_main emptyEnv true = (2, false) ∧
    (cfg0.password = "" ∧ canadianConnectAttempt emptyEnv = true) ∧
    cfg0.password = "" := by
  have h := C8_theorem emptyEnv true rfl
  exact ⟨h.1, h.2.1 cfg0 (by rfl), h.2.2 cfg0 (by rfl)⟩

/-- C10, confirmed.  get_complete_shipment_data returns None exactly when
the ship_id matches no row in SHIPMENT and no row in ARC_SHIPMENT; whenever
it returns a value, the value holds the found header under the shipment
key, with archived set exactly when the header came from the archive. -/
theorem C10_theorem (db : ShipDb) (sid : String) :
    (get_complete_shipment_data db sid = none ↔
      db.shipment sid = none ∧ db.arcShipment sid = none) ∧
    ∀ d, get_complete_shipment_data db sid = some d →
      (db.shipment sid = some d.shipment ∧ d.archived = false) ∨
      (db.shipment sid = none ∧ db.arcShipment sid = some d.shipment ∧
        d.archived = true) := by
  cases h1 : db.shipment sid with
  | some row =>
    constructor
    · simp [get_complete_shipment_data, h1]
    · intro d hd
      simp only [get_complete_shipment_data, h1, Option.some.injEq] at hd
      subst hd
      left
      exact ⟨rfl, rfl⟩
  | none =>
    cases h2 : db.arcShipment sid with
    | some row =>
      constructor
      · simp [get_complete_shipment_data, h1, h2]
      · intro d hd
        simp only [get_complete_shipment_data, h1, h2,
          Option.some.injEq] at hd
        subst hd
        right
        exact ⟨rfl, rfl, rfl⟩
    | none =>
      constructor
      · simp [get_complete_shipment_data, h1, h2]
      · intro d hd
        simp [get_complete_shipment_data, h1, h2] at hd

/-- C10, witness at the concrete archive-only database sdbB. -/
theorem C10_witness :
    (sdbB.shipment "S1" = some dB.shipment ∧ dB.archived = false) ∨
    (sdbB.shipment "S1" = none ∧ sdbB.arcShipment "S1" = some dB.shipment ∧
      dB.archived = true) :=
  (C10_theorem sdbB "S1").2 dB (by rfl)

/-- C9, confirmed.  execute_query is total over failing queries: on any
raised exception it returns the empty list instead of propagating, which is
exactly the value returned for a query succeeding with zero rows, so the
two are indistinguishable at the call site. -/
theorem C9_theorem (e : DbError) (rows : List Row) :
    execute_query (Except.error e) = [] ∧
    execute_query (Except.error e) = execute_query (Except.ok []) ∧
    execute_query (Except.ok rows) = rows :=
  ⟨rfl, rfl, rfl⟩

end Wms
